import Mathlib

/-!
Shallow embedding of the budget reconciliation pipeline of
`src/app.py` (Streamlit Clockify BI dashboard).

The pipeline in `main` is:
  raw rows → `validate_columns` → `process_data` (drop null projects,
  coerce durations, derive `Month_Year`) → filter by month/user/project
  selections → group by project and sum durations → left-merge with the
  user-edited budget table, `fillna(0)` → derive `Horas Restantes`,
  `% Consumido`, `Estado`.

Decimals are modelled as rationals; pandas floating-point division by
zero is modelled by an explicit value type with `nan` / `inf` / `neginf`
constructors, matching IEEE behaviour of `x / 0` in pandas.
-/

namespace ClockifyBI

/-- A raw imported row as the core sees it after column mapping.
`project = none` models a pandas NaN cell in the `Project` column
(`dropna` removes exactly these); `duration = none` models a
non-numeric `Duration (decimal)` cell (`to_numeric(errors='coerce')`
turns it into NaN); `startDate = none` models a missing/unparseable
`Start Date` (pandas NaT). A parsed date is modelled by its
(year, month) pair, which is all `dt.to_period('M')` reads. -/
structure RawRow where
  project : Option String
  user : String
  duration : Option ℚ
  startDate : Option (Nat × Nat)
  deriving Repr, DecidableEq

/-- A normalized time entry (one row of the processed DataFrame). -/
structure Entry where
  project : String
  user : String
  duration : ℚ
  monthYear : String
  deriving Repr, DecidableEq

/-- `str(Period('M'))` of a parsed date: "YYYY-MM"; for NaT the string
conversion `astype(str)` in `process_data` produces the literal "NaT". -/
def periodStr : Option (Nat × Nat) → String
  | none => "NaT"
  | some (y, m) =>
      toString y ++ "-" ++ (if m < 10 then "0" else "") ++ toString m

/-- `process_data` restricted to one row: `df.dropna(subset=['Project'])`
drops a row iff its `Project` cell is NaN; the duration is
`pd.to_numeric(..., errors='coerce').fillna(0)`; `Month_Year` is
`df['Start Date'].dt.to_period('M').astype(str)`. -/
def normRow (r : RawRow) : Option Entry :=
  r.project.map fun p =>
    { project := p
      user := r.user
      duration := r.duration.getD 0
      monthYear := periodStr r.startDate }

/-- `process_data` over the whole table, preserving row order. -/
def process_data (rows : List RawRow) : List Entry :=
  rows.filterMap normRow

/-- The three multiselect filter values of `main` (months, users,
projects), already chosen by the user. -/
structure Selection where
  months : List String
  users : List String
  projects : List String
  deriving Repr, DecidableEq

/-- The boolean mask of lines 137-141:
`Month_Year.isin(selected_months) & User.isin(selected_users) &
Project.isin(selected_projects_filter)`. -/
def entryMatches (s : Selection) (e : Entry) : Bool :=
  s.months.contains e.monthYear && s.users.contains e.user
    && s.projects.contains e.project

/-- `df_filtered = df[mask]`. -/
def filterEntries (s : Selection) (es : List Entry) : List Entry :=
  es.filter (entryMatches s)

/-- One row of the editable budget table (`Project`, `Horas Contratadas`). -/
structure BudgetRow where
  project : String
  contracted : ℚ
  deriving Repr, DecidableEq

/-- `sorted(df['Project'].unique())` of lines 94: the distinct project
identifiers in first-occurrence order, then sorted ascending. -/
def unique_projects (es : List Entry) : List String :=
  ((es.map Entry.project).dedup).insertionSort (· ≤ ·)

/-- `budget_template` of lines 97-100: one row per distinct project,
each with the constant default of 100.0 contracted hours. -/
def budget_template (es : List Entry) : List BudgetRow :=
  (unique_projects es).map fun p => { project := p, contracted := 100 }

/-- A pandas float value as far as the report computation needs it:
either an exact numeric value, or one of the IEEE non-finite values
that division by zero produces. -/
inductive PandasVal where
  | val (q : ℚ)
  | nan
  | inf
  | neginf
  deriving Repr, DecidableEq

/-- `(c / b) * 100` in pandas float semantics: for `b ≠ 0` the exact
quotient; `0/0` is NaN and `c/0` for `c ≠ 0` is ±infinity (multiplying
by 100 leaves all three unchanged). -/
def percentConsumed (c b : ℚ) : PandasVal :=
  if b = 0 then
    if c = 0 then .nan else if 0 < c then .inf else .neginf
  else .val (c / b * 100)

/-- `grouped_df` value for one project: the summed `Duration (decimal)`
of the filtered entries logged against it. After the left merge with
`fillna(0)`, a budget project with no matching entry gets 0, which is
also the empty sum, so this single expression is the merged value. -/
def consumedHours (es : List Entry) (p : String) : ℚ :=
  ((es.filter fun e => e.project == p).map Entry.duration).sum

/-- One row of the final merged report table. -/
structure ReportRow where
  project : String
  contracted : ℚ
  consumed : ℚ
  remaining : ℚ
  percent : PandasVal
  status : String
  deriving Repr, DecidableEq

/-- Lines 156-163: left merge of the edited budget table with the
grouped consumption (`how='left'`, `fillna(0)`), then
`Horas Restantes = Horas Contratadas - Horas Consumidas`,
`% Consumido = Horas Consumidas / Horas Contratadas * 100`, and
`Estado = 'Excedido' if Horas Restantes < 0 else 'En Presupuesto'`. -/
def mkReport (budget : List BudgetRow) (es : List Entry) : List ReportRow :=
  budget.map fun b =>
    let c := consumedHours es b.project
    { project := b.project
      contracted := b.contracted
      consumed := c
      remaining := b.contracted - c
      percent := percentConsumed c b.contracted
      status := if b.contracted - c < 0 then "Excedido" else "En Presupuesto" }

/-- The four required Clockify columns of `validate_columns`. -/
def required_columns : List String :=
  ["Project", "User", "Duration (decimal)", "Start Date"]

/-- `missing = [col for col in required_columns if col not in df.columns]`. -/
def missingColumns (cols : List String) : List String :=
  required_columns.filter fun c => ! cols.contains c

/-- Outcome of one recomputation pass of `main`: a schema error (line
48), the explicit empty-result warning of lines 143-145, or the final
report table. -/
inductive PipelineResult where
  | schemaError (missing : List String)
  | emptyResult
  | report (rows : List ReportRow)
  deriving Repr, DecidableEq

/-- The data path of `main` for one recomputation pass: validate the
columns, normalize, filter with the user selections, stop with the
warning if the filtered set is empty, otherwise build the merged
report from the user-edited budget table. -/
def runPipeline (cols : List String) (rows : List RawRow)
    (budget : List BudgetRow) (sel : Selection) : PipelineResult :=
  if missingColumns cols ≠ [] then .schemaError (missingColumns cols)
  else
    let filtered := filterEntries sel (process_data rows)
    if filtered.isEmpty then .emptyResult
    else .report (mkReport budget filtered)

/-- The shared inputs one pass of `main` reads: the uploaded table, the
edited budget grid, the filter selections. -/
structure AppState where
  cols : List String
  rows : List RawRow
  budget : List BudgetRow
  sel : Selection
  deriving Repr, DecidableEq

/-- One recomputation pass with the shared inputs threaded explicitly:
`process_data` copies before mutating (`dropna` returns a fresh frame)
and no step of lines 137-163 writes to the uploaded data, the budget
grid or the selections, so the pass returns its inputs unchanged. -/
def runPipelineSt (s : AppState) : PipelineResult × AppState :=
  (runPipeline s.cols s.rows s.budget s.sel, s)

/-! ## Theorems -/

/-- C3: in every row of the merged report, `Horas Restantes` is exactly
`Horas Contratadas - Horas Consumidas`, with no clamping: the subtraction
of line 159 is the only source of the value, so it is negative whenever
consumption exceeds the contracted hours. -/
theorem c3_remaining (budget : List BudgetRow) (es : List Entry) :
    ∀ row ∈ mkReport budget es, row.remaining = row.contracted - row.consumed := by
  intro row hrow
  simp only [mkReport, List.mem_map] at hrow
  obtain ⟨b, _, rfl⟩ := hrow
  rfl

/-- The single row the report of one budget line and no entries holds,
written out field by field. -/
def c3row : ReportRow :=
  { project := "P"
    contracted := 100
    consumed := consumedHours [] "P"
    remaining := 100 - consumedHours [] "P"
    percent := percentConsumed (consumedHours [] "P") 100
    status := if 100 - consumedHours [] "P" < (0 : ℚ) then "Excedido" else "En Presupuesto" }

/-- Witness for C3 at a concrete report row. -/
theorem c3_remaining_witness :
    c3row ∈ mkReport [⟨"P", 100⟩] [] ∧ c3row.remaining = c3row.contracted - c3row.consumed :=
  ⟨List.Mem.head _, c3_remaining [⟨"P", 100⟩] [] c3row (List.Mem.head _)⟩

/-- C5 (amended): `df.dropna(subset=['Project'])` drops exactly the rows
whose `Project` cell is missing (NaN); a row whose project is present is
kept whatever its value, so an empty-string project survives
normalization. -/
theorem c5_project_drop (r : RawRow) : normRow r = none ↔ r.project = none := by
  cases hr : r.project <;> simp [normRow, hr]

/-- Counterexample for C5 as stated: a raw row whose project is the empty
string (not NaN) passes `process_data` and reaches the output. -/
theorem c5_cex :
    ∃ e ∈ process_data [⟨some "", "u", some 1, none⟩], e.project = "" :=
  ⟨_, List.Mem.head _, rfl⟩

/-- C7 (amended): the normalized duration is
`pd.to_numeric(..., errors='coerce').fillna(0)` of the raw cell: a
non-numeric cell becomes 0, but a numeric cell is passed through
unchanged, sign included — nothing clamps negative durations. -/
theorem c7_duration (r : RawRow) (e : Entry) (h : normRow r = some e) :
    e.duration = r.duration.getD 0 := by
  cases hr : r.project with
  | none => simp [normRow, hr] at h
  | some p => simp [normRow, hr] at h; exact h ▸ rfl

/-- Witness for C7: a non-numeric duration cell is coerced to 0. -/
theorem c7_duration_witness :
    normRow ⟨some "P", "u", none, none⟩ = some ⟨"P", "u", 0, "NaT"⟩
    ∧ (⟨"P", "u", 0, "NaT"⟩ : Entry).duration
        = (⟨some "P", "u", none, none⟩ : RawRow).duration.getD 0 :=
  ⟨rfl, c7_duration ⟨some "P", "u", none, none⟩ ⟨"P", "u", 0, "NaT"⟩ rfl⟩

/-- Counterexample for C7 as stated: a numeric negative duration cell
survives normalization as a negative `durationHours`. -/
theorem c7_cex :
    ∃ e ∈ process_data [⟨some "P", "u", some (-5), none⟩], e.duration < 0 :=
  ⟨_, List.Mem.head _, by norm_num⟩

/-- C9: one recomputation pass is deterministic and side-effect-free:
its output is a function of the uploaded table, budget grid and
selections alone, the pass leaves those shared inputs unchanged, and
running it a second time on the state the first run left behind yields
the identical result. -/
theorem c9_idempotent (s : AppState) :
    (runPipelineSt s).2 = s
    ∧ (runPipelineSt s).1 = runPipeline s.cols s.rows s.budget s.sel
    ∧ (runPipelineSt ((runPipelineSt s).2)).1 = (runPipelineSt s).1 :=
  ⟨rfl, rfl, rfl⟩

/-- C2 (amended): an entry whose `Start Date` is missing gets the
literal period key "NaT" from `astype(str)`, and the period filter of
line 137 is plain set membership on that string: the entry passes the
filter exactly when "NaT" is among the selected months (which it is
under the default all-values selection, but not once the user picks
specific months). -/
theorem c2_period (r : RawRow) (e : Entry) (sel : Selection)
    (h : normRow r = some e) (hd : r.startDate = none) :
    e.monthYear = "NaT"
    ∧ entryMatches sel e
        = (sel.months.contains "NaT" && sel.users.contains e.user
            && sel.projects.contains e.project) := by
  cases hr : r.project with
  | none => simp [normRow, hr] at h
  | some p =>
      simp [normRow, hr] at h
      have hm : e.monthYear = "NaT" := by rw [← h]; simp [hd, periodStr]
      exact ⟨hm, by rw [entryMatches, hm]⟩

/-- Witness for C2 at a concrete dateless row and month selection. -/
theorem c2_period_witness :
    normRow ⟨some "P", "u", some 1, none⟩ = some ⟨"P", "u", 1, "NaT"⟩
    ∧ ((⟨"P", "u", 1, "NaT"⟩ : Entry).monthYear = "NaT"
        ∧ entryMatches ⟨["2024-01"], ["u"], ["P"]⟩ ⟨"P", "u", 1, "NaT"⟩
            = ((["2024-01"] : List String).contains "NaT"
                && (["u"] : List String).contains "u"
                && (["P"] : List String).contains "P")) :=
  ⟨rfl, c2_period ⟨some "P", "u", some 1, none⟩ ⟨"P", "u", 1, "NaT"⟩
    ⟨["2024-01"], ["u"], ["P"]⟩ rfl rfl⟩

/-- Counterexample for C2 as stated: a dateless entry whose user and
project both pass their filters is nevertheless excluded by a period
selection that names a specific month, so a missing date is not treated
as always matching. -/
theorem c2_cex :
    (process_data [⟨some "P", "u", some 1, none⟩]).length = 1
    ∧ (∀ e ∈ process_data [⟨some "P", "u", some 1, none⟩],
        (["u"] : List String).contains e.user ∧ (["P"] : List String).contains e.project)
    ∧ filterEntries ⟨["2024-01"], ["u"], ["P"]⟩ (process_data [⟨some "P", "u", some 1, none⟩])
        = [] := by
  refine ⟨rfl, ?_, rfl⟩
  intro e he
  simp [process_data, normRow] at he
  simp [he]

/-- C4 (amended): when `Horas Contratadas` is 0, line 160 still computes
`Horas Consumidas / Horas Contratadas * 100` — pandas float division
never raises, but the row's percentage is one of the non-finite values
NaN, +inf or -inf; no guard substitutes a defined sentinel. -/
theorem c4_percent (budget : List BudgetRow) (es : List Entry) :
    ∀ row ∈ mkReport budget es, row.contracted = 0 →
      row.percent = PandasVal.nan ∨ row.percent = PandasVal.inf
        ∨ row.percent = PandasVal.neginf := by
  intro row hrow h0
  simp only [mkReport, List.mem_map] at hrow
  obtain ⟨b, _, rfl⟩ := hrow
  have hb : b.contracted = 0 := h0
  by_cases hc : consumedHours es b.project = 0
  · left; simp [percentConsumed, hb, hc]
  · by_cases hpos : 0 < consumedHours es b.project
    · right; left; simp [percentConsumed, hb, hc, hpos]
    · right; right; simp [percentConsumed, hb, hc, hpos]

/-- The report row of a zero-budget project with one logged entry,
written out field by field. -/
def c4row : ReportRow :=
  { project := "P"
    contracted := 0
    consumed := consumedHours [⟨"P", "u", 5, "NaT"⟩] "P"
    remaining := 0 - consumedHours [⟨"P", "u", 5, "NaT"⟩] "P"
    percent := percentConsumed (consumedHours [⟨"P", "u", 5, "NaT"⟩] "P") 0
    status := if 0 - consumedHours [⟨"P", "u", 5, "NaT"⟩] "P" < (0 : ℚ)
      then "Excedido" else "En Presupuesto" }

/-- Witness for C4 at a zero-budget project with consumption. -/
theorem c4_percent_witness :
    c4row ∈ mkReport [⟨"P", 0⟩] [⟨"P", "u", 5, "NaT"⟩]
    ∧ c4row.contracted = 0
    ∧ (c4row.percent = PandasVal.nan ∨ c4row.percent = PandasVal.inf
        ∨ c4row.percent = PandasVal.neginf) :=
  ⟨List.Mem.head _, rfl,
    c4_percent [⟨"P", 0⟩] [⟨"P", "u", 5, "NaT"⟩] c4row (List.Mem.head _) rfl⟩

/-- Counterexample for C4 as stated: with contracted hours 0 and
consumption 5, the reported percentage is +inf — an undefined
(non-finite) value reaches the report row, not a defined sentinel. -/
theorem c4_cex :
    ∃ row ∈ mkReport [⟨"P", 0⟩] [⟨"P", "u", 5, "NaT"⟩],
      row.contracted = 0 ∧ ∀ q : ℚ, row.percent ≠ PandasVal.val q := by
  refine ⟨_, List.Mem.head _, rfl, ?_⟩
  intro q
  have h : consumedHours [⟨"P", "u", 5, "NaT"⟩] "P" = 5 := by
    simp [consumedHours]
  simp only [h]
  norm_num [percentConsumed]
  simp

/-- C6: the merge of line 156 is left-outer on the budget side: each
budget row survives into the report even when no filtered entry belongs
to its project, and then `fillna(0)` makes its consumption 0, its
remaining hours equal its contracted hours, and (the contracted hours
being non-negative, as the budget editor's `min_value=0` enforces) its
status 'En Presupuesto'. -/
theorem c6_outer_join (budget : List BudgetRow) (es : List Entry) (b : BudgetRow)
    (hb : b ∈ budget) (hno : ∀ e ∈ es, e.project ≠ b.project)
    (hc : 0 ≤ b.contracted) :
    ∃ row ∈ mkReport budget es, row.project = b.project
      ∧ row.consumed = 0 ∧ row.remaining = b.contracted
      ∧ row.status = "En Presupuesto" := by
  have hzero : consumedHours es b.project = 0 := by
    have : es.filter (fun e => e.project == b.project) = [] := by
      refine List.filter_eq_nil_iff.mpr ?_
      intro e he
      simpa using hno e he
    simp [consumedHours, this]
  refine ⟨_, List.mem_map_of_mem _ hb, rfl, hzero, ?_, ?_⟩
  · simp [hzero]
  · simp only [hzero, sub_zero]
    rw [if_neg (not_lt.mpr hc)]

/-- Witness for C6: a budgeted project with no entries at all. -/
theorem c6_outer_join_witness :
    (⟨"P", 100⟩ : BudgetRow) ∈ [(⟨"P", 100⟩ : BudgetRow)]
    ∧ (0 : ℚ) ≤ (100 : ℚ)
    ∧ ∃ row ∈ mkReport [⟨"P", 100⟩] [], row.project = "P"
        ∧ row.consumed = 0 ∧ row.remaining = 100
        ∧ row.status = "En Presupuesto" :=
  ⟨List.Mem.head _, by decide,
    c6_outer_join [⟨"P", 100⟩] [] ⟨"P", 100⟩ (List.Mem.head _) (by simp) (by decide)⟩

/-- C8: when the filtered entry set is empty, `main` emits the explicit
warning of lines 143-145 and returns before any grouping, merging or
variance computation — an outcome distinct by construction from both a
schema error and a produced report. -/
theorem c8_empty_result (cols : List String) (rows : List RawRow)
    (budget : List BudgetRow) (sel : Selection)
    (hcols : missingColumns cols = [])
    (hempty : filterEntries sel (process_data rows) = []) :
    runPipeline cols rows budget sel = PipelineResult.emptyResult
    ∧ (∀ m, PipelineResult.emptyResult ≠ PipelineResult.schemaError m)
    ∧ (∀ rs, PipelineResult.emptyResult ≠ PipelineResult.report rs) := by
  refine ⟨?_, fun m => by simp, fun rs => by simp⟩
  simp [runPipeline, hcols, hempty]

/-- Witness for C8 on an empty upload with all columns present. -/
theorem c8_empty_result_witness :
    missingColumns required_columns = []
    ∧ filterEntries ⟨[], [], []⟩ (process_data []) = []
    ∧ (runPipeline required_columns [] [] ⟨[], [], []⟩ = PipelineResult.emptyResult
        ∧ (∀ m, PipelineResult.emptyResult ≠ PipelineResult.schemaError m)
        ∧ (∀ rs, PipelineResult.emptyResult ≠ PipelineResult.report rs)) :=
  ⟨rfl, rfl, c8_empty_result required_columns [] [] ⟨[], [], []⟩ rfl rfl⟩

lemma consumedHours_cons (e : Entry) (es : List Entry) (p : String) :
    consumedHours (e :: es) p
      = (if e.project = p then e.duration else 0) + consumedHours es p := by
  by_cases h : e.project = p <;> simp [consumedHours, List.filter_cons, h]

lemma sum_filter_contains_cons (p : String) (ps : List String) (es : List Entry)
    (hp : p ∉ ps) :
    ((es.filter fun e => (p :: ps).contains e.project).map Entry.duration).sum
      = consumedHours es p
        + ((es.filter fun e => ps.contains e.project).map Entry.duration).sum := by
  induction es with
  | nil => simp [consumedHours]
  | cons e es ih =>
      rw [consumedHours_cons]
      by_cases h1 : e.project = p
      · have h2 : e.project ∉ ps := h1 ▸ hp
        simp [List.filter_cons, h1, h2, hp] at ih ⊢
        rw [ih]
        try ring
      · by_cases h2 : e.project ∈ ps
        · simp [List.filter_cons, h1, h2, hp] at ih ⊢
          rw [ih]
          try ring
        · simp [List.filter_cons, h1, h2, hp] at ih ⊢
          rw [ih]
          try ring

lemma sum_over_budget (ps : List String) (es : List Entry) (h : ps.Nodup) :
    (ps.map (consumedHours es)).sum
      = ((es.filter fun e => ps.contains e.project).map Entry.duration).sum := by
  induction ps with
  | nil => simp
  | cons p ps ih =>
      obtain ⟨hp, hnd⟩ := List.nodup_cons.mp h
      rw [List.map_cons, List.sum_cons, ih hnd, sum_filter_contains_cons p ps es hp]

/-- C1 (amended): conservation of hours holds whenever the budget
table's `Project` column is duplicate-free and contains the project of
every entry passing the filters — which the generated budget template
guarantees, since it lists each distinct project of the data exactly
once. The merge of line 156 is keyed on `Project`, so the summed
`Horas Consumidas` of the report then equals the summed
`Duration (decimal)` of exactly the filtered entries. -/
theorem c1_conservation (rows : List RawRow) (budget : List BudgetRow) (sel : Selection)
    (hnd : (budget.map BudgetRow.project).Nodup)
    (hcov : ∀ e ∈ filterEntries sel (process_data rows),
        e.project ∈ budget.map BudgetRow.project) :
    ((mkReport budget (filterEntries sel (process_data rows))).map ReportRow.consumed).sum
      = ((filterEntries sel (process_data rows)).map Entry.duration).sum := by
  have h1 : (mkReport budget (filterEntries sel (process_data rows))).map ReportRow.consumed
      = (budget.map BudgetRow.project).map
          (consumedHours (filterEntries sel (process_data rows))) := by
    simp [mkReport, List.map_map]
  have h2 : (filterEntries sel (process_data rows)).filter
      (fun e => (budget.map BudgetRow.project).contains e.project)
      = filterEntries sel (process_data rows) := by
    refine List.filter_eq_self.mpr ?_
    intro e he
    exact List.elem_iff.mpr (hcov e he)
  rw [h1, sum_over_budget _ _ hnd, h2]

/-- Witness for C1 at a one-entry upload whose budget table covers it. -/
theorem c1_conservation_witness :
    (([(⟨"P", 100⟩ : BudgetRow)].map BudgetRow.project).Nodup)
    ∧ (∀ e ∈ filterEntries ⟨["2024-01"], ["u"], ["P"]⟩
          (process_data [⟨some "P", "u", some 5, some (2024, 1)⟩]),
        e.project ∈ [(⟨"P", 100⟩ : BudgetRow)].map BudgetRow.project)
    ∧ ((mkReport [⟨"P", 100⟩] (filterEntries ⟨["2024-01"], ["u"], ["P"]⟩
          (process_data [⟨some "P", "u", some 5, some (2024, 1)⟩]))).map
            ReportRow.consumed).sum
      = ((filterEntries ⟨["2024-01"], ["u"], ["P"]⟩
          (process_data [⟨some "P", "u", some 5, some (2024, 1)⟩])).map
            Entry.duration).sum :=
  ⟨by decide, by decide, c1_conservation _ _ _ (by decide) (by decide)⟩

/-- Counterexample for C1 as stated (quantifying over every budget
table): with the single entry for project "P" passing the filters but a
budget table listing only "Q" (as happens when the user edits a project
name in the grid), the report's consumed total is 0 while the matching
entries sum to 5 — the entry is omitted by the merge. -/
theorem c1_cex :
    ((mkReport [⟨"Q", 100⟩] (filterEntries ⟨["NaT"], ["u"], ["P"]⟩
        (process_data [⟨some "P", "u", some 5, none⟩]))).map ReportRow.consumed).sum
      ≠ ((filterEntries ⟨["NaT"], ["u"], ["P"]⟩
        (process_data [⟨some "P", "u", some 5, none⟩])).map Entry.duration).sum := by
  have h1 : filterEntries ⟨["NaT"], ["u"], ["P"]⟩
      (process_data [⟨some "P", "u", some 5, none⟩]) = [⟨"P", "u", 5, "NaT"⟩] := rfl
  have h2 : consumedHours [⟨"P", "u", 5, "NaT"⟩] "Q" = 0 := rfl
  rw [h1]
  simp [mkReport, h2]

lemma budget_template_projects (es : List Entry) :
    (budget_template es).map BudgetRow.project = unique_projects es := by
  simp [budget_template, List.map_map, Function.comp_def]

lemma map_const_hundred (l : List String) :
    (l.map fun p => (⟨p, 100⟩ : BudgetRow)).map BudgetRow.contracted
      = List.replicate l.length 100 := by
  induction l with
  | nil => rfl
  | cons p l ih => simp [ih, List.replicate_succ]

/-- C10: the budget seed of lines 94-100 carries no per-project
configuration: every row of the template gets the one constant 100.0,
and the rows are listed in strictly ascending (sorted, duplicate-free)
order of project identifier, one per distinct project of the loaded
data. -/
theorem c10_budget_defaults (es : List Entry) :
    (budget_template es).map BudgetRow.contracted
        = List.replicate (budget_template es).length 100
    ∧ ((budget_template es).map BudgetRow.project).Sorted (· ≤ ·)
    ∧ ((budget_template es).map BudgetRow.project).Nodup
    ∧ ∀ p : String, p ∈ (budget_template es).map BudgetRow.project
        ↔ p ∈ es.map Entry.project := by
  refine ⟨?_, ?_, ?_, ?_⟩
  · have hlen : (budget_template es).length = (unique_projects es).length := by
      simp [budget_template]
    rw [hlen, budget_template]
    exact map_const_hundred _
  · rw [budget_template_projects]
    exact List.sorted_insertionSort _ _
  · rw [budget_template_projects]
    exact (List.perm_insertionSort _ _).nodup_iff.mpr (List.nodup_dedup _)
  · intro p
    rw [budget_template_projects]
    unfold unique_projects
    rw [(List.perm_insertionSort _ _).mem_iff]
    exact List.mem_dedup

end ClockifyBI
